import Mathlib

/-!
Verification of the parsec front-end request pipeline and key-id-manager
mapping layer.

The development shallowly embeds the two source files:

* `src/front/front_end.rs` — `FrontEndHandler::handle_request` and
  `FrontEndHandlerBuilder`.  The stream is abstracted: the outcome of
  `Request::read_from_stream` is passed in as an `Except` value (the
  `Request`/`Response` wire primitives are external collaborators), and the
  observable effects of a call — every response write attempted on the
  stream, every dispatcher invocation, and every `authenticate` invocation —
  are recorded in a `HandleOutcome` record.  `handle_request` is total and
  returns no error, mirroring the Rust function's `()` return type: a write
  failure is only logged there, never propagated.

* `src/key_id_managers/mod.rs` — `KeyTriple`, `to_response_status`, and the
  `ManageKeyIDs` trait contract.
-/

namespace Parsec

/-- Authentication type declared in a request header
(`parsec_interface::requests::AuthType`). -/
inductive AuthType where
  | NoAuth
  | Direct
deriving DecidableEq, Repr

/-- Response status codes.  Only the statuses the front end and the
key-id-manager layer produce themselves are distinguished; every other
status of the interface crate is represented by `Other`. -/
inductive ResponseStatus where
  | Success
  | AuthenticatorNotRegistered
  | KeyIDManagerError
  | Other (code : Nat)
deriving DecidableEq, Repr

/-- A verified application identity
(`crate::authenticators::ApplicationName`, a wrapper around a string). -/
abbrev ApplicationName := String

/-- Request header fields the front end inspects: the declared
authentication type, plus an opaque remainder (opcode etc.) so that
distinct headers exist. -/
structure RequestHeader where
  auth_type : AuthType
  opcode : Nat
deriving DecidableEq, Repr

/-- A deserialized request: header, authentication payload bytes and body
bytes. -/
structure Request where
  header : RequestHeader
  auth : List Nat
  body : List Nat
deriving DecidableEq, Repr

/-- A response as the front end observes it: the header information echoed
from the request (`none` when the response was built from a status alone)
and the status carried back. -/
structure Response where
  header : Option RequestHeader
  status : ResponseStatus
deriving DecidableEq, Repr

/-- `Response::from_status`: a response built solely from a failure status,
with no request header echoed. -/
def Response.from_status (status : ResponseStatus) : Response :=
  { header := none, status := status }

/-- `Response::from_request_header`: a response echoing the request header
and carrying the given status. -/
def Response.from_request_header (header : RequestHeader)
    (status : ResponseStatus) : Response :=
  { header := some header, status := status }

/-- An authenticator capability: `authenticate` takes the request's
authentication payload and yields a verified application name or a failure
status (`crate::authenticators::Authenticate`). -/
abbrev Authenticator := List Nat → Except ResponseStatus ApplicationName

/-- The dispatcher collaborator: an opaque function from a request and an
optional verified identity to a response
(`Dispatcher::dispatch_request`). -/
abbrev Dispatcher := Request → Option ApplicationName → Response

/-- The authenticator registry: the `HashMap<AuthType, Box<dyn
Authenticate>>` is modelled by its lookup function. -/
abbrev AuthRegistry := AuthType → Option Authenticator

/-- Observable effects of one `handle_request` call: the responses whose
write was attempted on the stream (in order), the dispatcher invocations
(request and optional identity), and the `authenticate` invocations
(the payloads passed). -/
structure HandleOutcome where
  writes : List Response
  dispatched : List (Request × Option ApplicationName)
  authCalls : List (List Nat)
deriving DecidableEq, Repr

/-- `FrontEndHandler::handle_request`, with the stream abstracted:
`readResult` is the outcome of `Request::read_from_stream`, and the
returned `HandleOutcome` records each write attempt, dispatcher call and
authenticator call.  Write failures are only logged in the source, so they
do not influence the control flow and the function is total. -/
def handle_request (authenticators : AuthRegistry) (dispatcher : Dispatcher)
    (readResult : Except ResponseStatus Request) : HandleOutcome :=
  match readResult with
  | .error status =>
      { writes := [Response.from_status status]
        dispatched := []
        authCalls := [] }
  | .ok request =>
      if AuthType.NoAuth = request.header.auth_type then
        let response := dispatcher request none
        { writes := [response]
          dispatched := [(request, none)]
          authCalls := [] }
      else
        match authenticators request.header.auth_type with
        | some authenticator =>
            match authenticator request.auth with
            | .ok app_name =>
                let response := dispatcher request (some app_name)
                { writes := [response]
                  dispatched := [(request, some app_name)]
                  authCalls := [request.auth] }
            | .error status =>
                { writes := [Response.from_request_header request.header status]
                  dispatched := []
                  authCalls := [request.auth] }
        | none =>
            { writes := [Response.from_request_header request.header
                           ResponseStatus.AuthenticatorNotRegistered]
              dispatched := []
              authCalls := [] }

/-- The constructed front-end handler: a dispatcher, an authenticator
registry and the body length limit (`FrontEndHandler`). -/
structure FrontEndHandler where
  dispatcher : Dispatcher
  authenticators : AuthRegistry
  body_len_limit : Nat

/-- The error kind used by the builder
(`std::io::ErrorKind::InvalidData`). -/
inductive ErrorKind where
  | InvalidData
deriving DecidableEq, Repr

/-- A `std::io::Error` as the builder produces it: a kind and a message. -/
structure IoError where
  kind : ErrorKind
  msg : String
deriving DecidableEq, Repr

/-- `FrontEndHandlerBuilder`: three optional fields accumulated by the
setters and validated by `build`. -/
structure FrontEndHandlerBuilder where
  dispatcher : Option Dispatcher
  authenticators : Option AuthRegistry
  body_len_limit : Option Nat

/-- `FrontEndHandlerBuilder::new`: all three fields start unset. -/
def FrontEndHandlerBuilder.new : FrontEndHandlerBuilder :=
  { dispatcher := none, authenticators := none, body_len_limit := none }

/-- `FrontEndHandlerBuilder::with_dispatcher`. -/
def FrontEndHandlerBuilder.with_dispatcher (b : FrontEndHandlerBuilder)
    (dispatcher : Dispatcher) : FrontEndHandlerBuilder :=
  { b with dispatcher := some dispatcher }

/-- `FrontEndHandlerBuilder::with_authenticator`: upsert into the registry,
creating it on first use. -/
def FrontEndHandlerBuilder.with_authenticator (b : FrontEndHandlerBuilder)
    (auth_type : AuthType) (authenticator : Authenticator) :
    FrontEndHandlerBuilder :=
  match b.authenticators with
  | some m =>
      let m2 : AuthRegistry := fun t => if t = auth_type then some authenticator else m t
      { b with authenticators := some m2 }
  | none =>
      let m2 : AuthRegistry := fun t => if t = auth_type then some authenticator else none
      { b with authenticators := some m2 }

/-- `FrontEndHandlerBuilder::with_body_len_limit`. -/
def FrontEndHandlerBuilder.with_body_len_limit (b : FrontEndHandlerBuilder)
    (body_len_limit : Nat) : FrontEndHandlerBuilder :=
  { b with body_len_limit := some body_len_limit }

/-- `FrontEndHandlerBuilder::build`: each field is unwrapped with
`ok_or_else` in source order — dispatcher, then authenticators, then
body_len_limit — and the `?` operator returns the first missing-field
error. -/
def FrontEndHandlerBuilder.build (b : FrontEndHandlerBuilder) :
    Except IoError FrontEndHandler :=
  match b.dispatcher with
  | none => .error { kind := .InvalidData, msg := "dispatcher is missing" }
  | some dispatcher =>
      match b.authenticators with
      | none => .error { kind := .InvalidData, msg := "authenticators is missing" }
      | some authenticators =>
          match b.body_len_limit with
          | none => .error { kind := .InvalidData, msg := "body_len_limit is missing" }
          | some body_len_limit =>
              .ok { dispatcher := dispatcher
                    authenticators := authenticators
                    body_len_limit := body_len_limit }

/-- `ProviderID` (`parsec_interface::requests::ProviderID`): identifies the
cryptographic backend owning a key. -/
inductive ProviderID where
  | Core
  | MbedProvider
  | TpmProvider
deriving DecidableEq, Repr

/-- `KeyTriple`: the unique identifier of a key — application name,
provider id and key name.  Equality and hashing are derived structurally
(`#[derive(PartialEq, Eq, Hash)]`). -/
structure KeyTriple where
  app_name : ApplicationName
  provider_id : ProviderID
  key_name : String
deriving DecidableEq, Repr

/-- `KeyTriple::new`. -/
def KeyTriple.new (app_name : ApplicationName) (provider_id : ProviderID)
    (key_name : String) : KeyTriple :=
  { app_name := app_name, provider_id := provider_id, key_name := key_name }

/-- `KeyTriple::belongs_to_provider`: true when this key belongs to the
given provider. -/
def KeyTriple.belongs_to_provider (t : KeyTriple) (provider_id : ProviderID) :
    Bool :=
  t.provider_id == provider_id

/-- Key attributes (`psa_key_attributes::KeyAttributes`), treated as an
opaque structured value by the mapping layer. -/
abbrev KeyAttributes := Nat

/-- `KeyInfo`: the opaque provider key id bytes plus the key attributes. -/
structure KeyInfo where
  id : List Nat
  attributes : KeyAttributes
deriving DecidableEq, Repr

/-- `to_response_status`: converts the error string returned by the
`ManageKeyIDs` methods to `ResponseStatus::KeyIDManagerError` (the string
is only logged). -/
def to_response_status (_error_string : String) : ResponseStatus :=
  ResponseStatus.KeyIDManagerError

namespace ManageKeyIDs

/-- Modelled from the spec: the `ManageKeyIDs` trait of
`src/key_id_managers/mod.rs` only declares the mapping contract; no backend
implementation is under `src/` (the `on_disk_manager` module is absent).
The durable table `KeyTriple → KeyInfo` is modelled as an association list
with at most one entry per triple. -/
abbrev Store := List (KeyTriple × KeyInfo)

/-- Modelled from the spec: `get` returns the key info corresponding to
this key triple, or `None` if it does not exist. -/
def get (s : Store) (key_triple : KeyTriple) : Option KeyInfo :=
  match s with
  | [] => none
  | (t, i) :: rest => if t = key_triple then some i else get rest key_triple

/-- Modelled from the spec: `insert` adds a new mapping between the key
triple and the key info; if the triple already exists, it overwrites the
existing mapping and returns the old `KeyInfo`, otherwise it returns
`None`.  The result pairs the updated store with the returned value. -/
def insert (s : Store) (key_triple : KeyTriple) (key_info : KeyInfo) :
    Store × Option KeyInfo :=
  match s with
  | [] => ([(key_triple, key_info)], none)
  | (t, i) :: rest =>
      if t = key_triple then ((key_triple, key_info) :: rest, some i)
      else ((t, i) :: (insert rest key_triple key_info).1,
            (insert rest key_triple key_info).2)

end ManageKeyIDs

/-! Concrete sample collaborators used to instantiate the theorems. -/

/-- A sample request header with the given authentication type. -/
def sampleHeader (t : AuthType) : RequestHeader :=
  { auth_type := t, opcode := 1 }

/-- A sample well-formed request with the given authentication type. -/
def sampleRequest (t : AuthType) : Request :=
  { header := sampleHeader t, auth := [7], body := [1, 2] }

/-- A sample dispatcher that answers every request with a success response
echoing the request header. -/
def sampleDispatcher : Dispatcher :=
  fun request _ => Response.from_request_header request.header ResponseStatus.Success

/-- A sample authenticator that accepts every payload. -/
def acceptAuth : Authenticator := fun _ => .ok "app"

/-- A sample authenticator that rejects every payload with status
`Other 5`. -/
def rejectAuth : Authenticator := fun _ => .error (ResponseStatus.Other 5)

/-- A sample registry with an authenticator registered under every
authentication type — including `NoAuth`. -/
def sampleRegistry : AuthRegistry := fun t =>
  match t with
  | AuthType.NoAuth => some acceptAuth
  | AuthType.Direct => some rejectAuth

/-- A sample registry that accepts `Direct` requests. -/
def acceptingRegistry : AuthRegistry := fun t =>
  match t with
  | AuthType.NoAuth => none
  | AuthType.Direct => some acceptAuth

/-- A registry with no authenticator registered at all. -/
def emptyRegistry : AuthRegistry := fun _ => none

/-! Theorems. -/

/-- C1: a request whose header declares `NoAuth` is dispatched with no
verified identity (`none`); no authenticator is consulted (the registry is
universally quantified, so this holds even when an authenticator is
registered under `NoAuth`), and the dispatcher's response is the one
written back. -/
theorem handle_request_noauth_skips_authenticators (authenticators : AuthRegistry)
    (dispatcher : Dispatcher) (request : Request)
    (h : request.header.auth_type = AuthType.NoAuth) :
    handle_request authenticators dispatcher (.ok request) =
      { writes := [dispatcher request none]
        dispatched := [(request, none)]
        authCalls := [] } := by
  simp [handle_request, h]

/-- Witness for C1: a concrete `NoAuth` request against a registry that
does have an authenticator registered under `NoAuth`. -/
theorem handle_request_noauth_skips_authenticators_witness :
    (sampleRequest AuthType.NoAuth).header.auth_type = AuthType.NoAuth ∧
    (sampleRegistry AuthType.NoAuth).isSome = true ∧
    handle_request sampleRegistry sampleDispatcher (.ok (sampleRequest AuthType.NoAuth)) =
      { writes := [sampleDispatcher (sampleRequest AuthType.NoAuth) none]
        dispatched := [(sampleRequest AuthType.NoAuth, none)]
        authCalls := [] } :=
  ⟨rfl, rfl,
    handle_request_noauth_skips_authenticators sampleRegistry sampleDispatcher
      (sampleRequest AuthType.NoAuth) rfl⟩

/-- C2: a request whose declared authentication type is not `NoAuth` and
has no registered authenticator gets a response built from its header with
the `AuthenticatorNotRegistered` status; the dispatcher is never invoked
(and no authenticator is called). -/
theorem handle_request_unregistered_auth_type (authenticators : AuthRegistry)
    (dispatcher : Dispatcher) (request : Request)
    (hna : request.header.auth_type ≠ AuthType.NoAuth)
    (hreg : authenticators request.header.auth_type = none) :
    handle_request authenticators dispatcher (.ok request) =
      { writes := [Response.from_request_header request.header
                     ResponseStatus.AuthenticatorNotRegistered]
        dispatched := []
        authCalls := [] } := by
  have hne : ¬(AuthType.NoAuth = request.header.auth_type) := fun h => hna h.symm
  simp [handle_request, hne, hreg]

/-- Witness for C2: a concrete `Direct` request against the empty
registry. -/
theorem handle_request_unregistered_auth_type_witness :
    (sampleRequest AuthType.Direct).header.auth_type ≠ AuthType.NoAuth ∧
    emptyRegistry (sampleRequest AuthType.Direct).header.auth_type = none ∧
    handle_request emptyRegistry sampleDispatcher (.ok (sampleRequest AuthType.Direct)) =
      { writes := [Response.from_request_header (sampleHeader AuthType.Direct)
                     ResponseStatus.AuthenticatorNotRegistered]
        dispatched := []
        authCalls := [] } :=
  ⟨by decide, rfl,
    handle_request_unregistered_auth_type emptyRegistry sampleDispatcher
      (sampleRequest AuthType.Direct) (by decide) rfl⟩

/-- C3: with a registered authenticator, an authentication failure yields a
response built from the request header carrying exactly the failure status
and the dispatcher is never invoked; an authentication success dispatches
the request with `some` of the verified identity. -/
theorem handle_request_registered_authenticator (authenticators : AuthRegistry)
    (dispatcher : Dispatcher) (request : Request) (a : Authenticator)
    (hna : request.header.auth_type ≠ AuthType.NoAuth)
    (hreg : authenticators request.header.auth_type = some a) :
    (∀ status, a request.auth = .error status →
        handle_request authenticators dispatcher (.ok request) =
          { writes := [Response.from_request_header request.header status]
            dispatched := []
            authCalls := [request.auth] }) ∧
    (∀ app_name, a request.auth = .ok app_name →
        handle_request authenticators dispatcher (.ok request) =
          { writes := [dispatcher request (some app_name)]
            dispatched := [(request, some app_name)]
            authCalls := [request.auth] }) := by
  have hne : ¬(AuthType.NoAuth = request.header.auth_type) := fun h => hna h.symm
  constructor
  · intro status hstatus
    simp [handle_request, hne, hreg, hstatus]
  · intro app_name hname
    simp [handle_request, hne, hreg, hname]

/-- Witness for C3: a concrete `Direct` request whose registered
authenticator rejects it with status `Other 5`; the response carries
exactly that status and nothing is dispatched. -/
theorem handle_request_registered_authenticator_witness :
    handle_request sampleRegistry sampleDispatcher (.ok (sampleRequest AuthType.Direct)) =
      { writes := [Response.from_request_header (sampleHeader AuthType.Direct)
                     (ResponseStatus.Other 5)]
        dispatched := []
        authCalls := [[7]] } :=
  (handle_request_registered_authenticator sampleRegistry sampleDispatcher
      (sampleRequest AuthType.Direct) rejectAuth (by decide) rfl).1
    (ResponseStatus.Other 5) rfl

/-- C4: when reading or deserializing the request fails, the one response
written is built solely from the failure status (no request header is
echoed — its header field is `none`), and neither an authenticator nor the
dispatcher is invoked.  `handle_request` is total, so a secondary write
failure is never propagated. -/
theorem handle_request_read_failure (authenticators : AuthRegistry)
    (dispatcher : Dispatcher) (status : ResponseStatus) :
    handle_request authenticators dispatcher (.error status) =
      { writes := [Response.from_status status]
        dispatched := []
        authCalls := [] } ∧
    (Response.from_status status).header = none :=
  ⟨rfl, rfl⟩

/-- C5: on every execution path of `handle_request` exactly one response
write attempt is made, and `authenticate` is invoked at most once. -/
theorem handle_request_exactly_one_write (authenticators : AuthRegistry)
    (dispatcher : Dispatcher) (readResult : Except ResponseStatus Request) :
    (handle_request authenticators dispatcher readResult).writes.length = 1 ∧
    (handle_request authenticators dispatcher readResult).authCalls.length ≤ 1 := by
  cases readResult with
  | error status => simp [handle_request]
  | ok request =>
    by_cases h : AuthType.NoAuth = request.header.auth_type
    · simp [handle_request, h]
    · cases hreg : authenticators request.header.auth_type with
      | none => simp [handle_request, h, hreg]
      | some a =>
        cases ha : a request.auth with
        | ok app_name => simp [handle_request, h, hreg, ha]
        | error status => simp [handle_request, h, hreg, ha]

/-- C6: `insert` returns exactly the previously stored value for the triple
(`some R1` when the triple was mapped to `R1`, `none` when the triple was
absent), and a subsequent `get` of the triple returns the newly inserted
value. -/
theorem ManageKeyIDs.insert_replace_semantics (s : ManageKeyIDs.Store)
    (t : KeyTriple) (r2 : KeyInfo) :
    (ManageKeyIDs.insert s t r2).2 = ManageKeyIDs.get s t ∧
    ManageKeyIDs.get (ManageKeyIDs.insert s t r2).1 t = some r2 := by
  induction s with
  | nil => simp [ManageKeyIDs.insert, ManageKeyIDs.get]
  | cons hd tl ih =>
    obtain ⟨t1, i1⟩ := hd
    by_cases h : t1 = t
    · subst h
      simp [ManageKeyIDs.insert, ManageKeyIDs.get]
    · simp [ManageKeyIDs.insert, ManageKeyIDs.get, h, ih.1, ih.2]

/-- C7: `build` fails with a distinct missing-field error for whichever of
the three required values was never supplied — dispatcher, authenticator
registry, body-size limit — and succeeds exactly when all three were
set. -/
theorem FrontEndHandlerBuilder.build_missing_fields (b : FrontEndHandlerBuilder) :
    (b.dispatcher = none →
        b.build = .error { kind := .InvalidData, msg := "dispatcher is missing" }) ∧
    (b.dispatcher.isSome = true → b.authenticators = none →
        b.build = .error { kind := .InvalidData, msg := "authenticators is missing" }) ∧
    (b.dispatcher.isSome = true → b.authenticators.isSome = true →
        b.body_len_limit = none →
        b.build = .error { kind := .InvalidData, msg := "body_len_limit is missing" }) ∧
    ((∃ handler, b.build = .ok handler) ↔
        b.dispatcher.isSome = true ∧ b.authenticators.isSome = true ∧
        b.body_len_limit.isSome = true) := by
  obtain ⟨d, a, l⟩ := b
  cases d <;> cases a <;> cases l <;>
    simp [FrontEndHandlerBuilder.build]

/-- Witness for C7: a builder with the authenticator and the body limit set
but no dispatcher fails with the dispatcher-missing error; one with only
the authenticators unset fails with the authenticators-missing error; one
with only the body limit unset fails with the body-limit-missing error. -/
theorem FrontEndHandlerBuilder.build_missing_fields_witness :
    ((FrontEndHandlerBuilder.new.with_authenticator AuthType.Direct
        acceptAuth).with_body_len_limit 1024).build =
      .error { kind := .InvalidData, msg := "dispatcher is missing" } ∧
    ((FrontEndHandlerBuilder.new.with_dispatcher
        sampleDispatcher).with_body_len_limit 1024).build =
      .error { kind := .InvalidData, msg := "authenticators is missing" } ∧
    ((FrontEndHandlerBuilder.new.with_dispatcher
        sampleDispatcher).with_authenticator AuthType.Direct acceptAuth).build =
      .error { kind := .InvalidData, msg := "body_len_limit is missing" } :=
  ⟨(FrontEndHandlerBuilder.build_missing_fields
      ((FrontEndHandlerBuilder.new.with_authenticator AuthType.Direct
        acceptAuth).with_body_len_limit 1024)).1 rfl,
   (FrontEndHandlerBuilder.build_missing_fields
      ((FrontEndHandlerBuilder.new.with_dispatcher
        sampleDispatcher).with_body_len_limit 1024)).2.1 rfl rfl,
   (FrontEndHandlerBuilder.build_missing_fields
      ((FrontEndHandlerBuilder.new.with_dispatcher
        sampleDispatcher).with_authenticator AuthType.Direct acceptAuth)).2.2.1
     rfl rfl rfl⟩

/-- C8: `to_response_status` returns the generic `KeyIDManagerError` status
for every backend error string, independently of the string's content. -/
theorem to_response_status_generic (s t : String) :
    to_response_status s = ResponseStatus.KeyIDManagerError ∧
    to_response_status s = to_response_status t :=
  ⟨rfl, rfl⟩

/-- C9: two `KeyTriple` values are equal iff their application name,
provider id and key name are all pairwise equal (structural equality, no
normalization), and `belongs_to_provider p` holds exactly when the
`provider_id` field equals `p`. -/
theorem KeyTriple.eq_iff_fields_eq (a b : KeyTriple) (p : ProviderID) :
    (a = b ↔
        a.app_name = b.app_name ∧ a.provider_id = b.provider_id ∧
        a.key_name = b.key_name) ∧
    (a.belongs_to_provider p = true ↔ a.provider_id = p) := by
  constructor
  · constructor
    · rintro rfl
      exact ⟨rfl, rfl, rfl⟩
    · rintro ⟨h1, h2, h3⟩
      cases a
      cases b
      simp_all
  · simp [KeyTriple.belongs_to_provider]

/-- C10: `build` checks the fields in the fixed order dispatcher,
authenticators, body_len_limit and reports only the first missing one:
whenever the dispatcher is unset the error is always the dispatcher-missing
one, whatever the other two fields are; the authenticators-missing error is
only ever reported when the dispatcher is present. -/
theorem FrontEndHandlerBuilder.build_checks_in_order (b : FrontEndHandlerBuilder) :
    (b.dispatcher = none →
        b.build = .error { kind := .InvalidData, msg := "dispatcher is missing" }) ∧
    (b.build = .error { kind := .InvalidData, msg := "authenticators is missing" } →
        b.dispatcher.isSome = true ∧ b.authenticators = none) := by
  obtain ⟨d, a, l⟩ := b
  cases d <;> cases a <;> cases l <;>
    simp [FrontEndHandlerBuilder.build]

/-- Witness for C10: a freshly created builder — all three fields unset —
fails with the dispatcher-missing error. -/
theorem FrontEndHandlerBuilder.build_checks_in_order_witness :
    FrontEndHandlerBuilder.new.build =
      .error { kind := .InvalidData, msg := "dispatcher is missing" } :=
  (FrontEndHandlerBuilder.build_checks_in_order FrontEndHandlerBuilder.new).1 rfl

end Parsec
